import Mathlib

/-!
Shallow embedding of the ESDA backend's items resource.

Sources embedded:
- src/backend/src/routes/items.js : the zod schema `CreateItem`, the GET and
  POST handlers over the Prisma `item` table.
- src/backend/src/index.js : the CORS origin callback and allowed-origins
  configuration.
- src/backend/prisma/seed.mjs : the seed script.

Modelling conventions:
- The Prisma-backed table is a `Store`: a list of rows plus a counter that
  generates fresh ids (Prisma generates unique ids; freshness is the property
  the routes rely on).  `createdAt` is a Nat timestamp supplied by the caller
  as the current time.
- JSON values are the inductive `Json`; a parsed JS object is a field list
  where lookup takes the last binding, as `JSON.parse` keeps the last
  duplicate key.
- String length counts characters (Lean code points).
- A fallible Prisma call is driven by an oracle `Option DbError`: `none` means
  the statement succeeds, `some e` that it fails with `e`.
-/

namespace Esda

/-- An `Item` row: `id` generated at creation, `title`, `createdAt` timestamp
(model of the Prisma `item` table used by routes/items.js and seed.mjs). -/
structure Item where
  id : Nat
  title : String
  createdAt : Nat
deriving DecidableEq, Repr

/-- The persistent store backing `prisma.item`: the rows plus the generator of
fresh ids (the next id handed out at creation). -/
structure Store where
  rows : List Item
  nextId : Nat
deriving DecidableEq, Repr

/-- JSON values, as produced by `express.json()` body parsing and consumed by
`res.json`. -/
inductive Json where
  | null : Json
  | bool (b : Bool) : Json
  | num (n : Int) : Json
  | str (s : String) : Json
  | arr (xs : List Json) : Json
  | obj (fields : List (String × Json)) : Json

/-- Key lookup in a parsed JS object.  `JSON.parse` keeps the last occurrence
of a duplicated key, so the fold returns the last binding. -/
def lookupField (fields : List (String × Json)) (k : String) : Option Json :=
  fields.foldl (fun acc p => if p.1 = k then some p.2 else acc) none

/-- One zod validation issue: a path into the input and a message
(the parts of a `ZodIssue` that `.format()` uses). -/
structure ZodIssue where
  path : List String
  message : String
deriving DecidableEq, Repr

/-- The normalized output of the `CreateItem` schema: zod `z.object` strips
unknown keys, so only `title` survives parsing. -/
structure CreateItemData where
  title : String
deriving DecidableEq, Repr

/-- `CreateItem.safeParse` for
`const CreateItem = z.object(\x7b title: z.string().min(1).max(200) \x7d)`
(routes/items.js line 15): non-objects fail at the root; a missing `title` is
`Required`; a non-string `title` is a type error; `.min(1)` fails when the
length is below 1 and `.max(200)` when it is above 200; on success the data is
the stripped record containing only `title`. -/
def CreateItem_safeParse : Json → Except (List ZodIssue) CreateItemData
  | Json.obj fields =>
      match lookupField fields "title" with
      | some (Json.str t) =>
          if t.length < 1 then
            .error [⟨["title"], "String must contain at least 1 character(s)"⟩]
          else if t.length > 200 then
            .error [⟨["title"], "String must contain at most 200 character(s)"⟩]
          else .ok ⟨t⟩
      | some _ => .error [⟨["title"], "Expected string"⟩]
      | none => .error [⟨["title"], "Required"⟩]
  | _ => .error [⟨[], "Expected object"⟩]

/-- The shape of `parsed.error.format()`: messages at the root plus messages
grouped under the offending field name. -/
structure FormattedError where
  rootErrors : List String
  fieldErrors : List (String × List String)
deriving DecidableEq, Repr

/-- `ZodError.format()` on a list of issues: root-path messages go to
`rootErrors`, issues under a field go to that field's entry. -/
def formatIssues (issues : List ZodIssue) : FormattedError :=
  { rootErrors := (issues.filter (fun i => i.path.isEmpty)).map ZodIssue.message
    fieldErrors := issues.filterMap (fun i =>
      match i.path with
      | [] => none
      | f :: _ => some (f, [i.message])) }

/-- JSON rendering of a formatted error, mirroring the nested
`_errors` object that `format()` returns. -/
def formattedErrorJson (e : FormattedError) : Json :=
  Json.obj (("_errors", Json.arr (e.rootErrors.map Json.str)) ::
    e.fieldErrors.map (fun p => (p.1, Json.obj [("_errors", Json.arr (p.2.map Json.str))])))

/-- JSON serialization of an item, as `res.json` sends it. -/
def itemJson (it : Item) : Json :=
  Json.obj [("id", Json.num (it.id : Int)), ("title", Json.str it.title),
    ("createdAt", Json.num (it.createdAt : Int))]

/-- An HTTP response: status code and JSON body. -/
structure Response where
  status : Nat
  body : Json

/-- Failure modes of a Prisma statement named by the spec: connection
unavailable or a constraint violation surfaced by the ORM. -/
inductive DbError where
  | connectionUnavailable
  | constraintViolation
deriving DecidableEq, Repr

/-- Ordering used by `findMany` with `orderBy createdAt desc`: `a` comes
before `b` when `b.createdAt ≤ a.createdAt` (newest first). -/
def newerFirst (a b : Item) : Prop := b.createdAt ≤ a.createdAt

instance : DecidableRel newerFirst := fun a b => Nat.decLe b.createdAt a.createdAt

instance : IsTotal Item newerFirst :=
  ⟨fun a b => Nat.le_total b.createdAt a.createdAt⟩

instance : IsTrans Item newerFirst :=
  ⟨fun _ _ _ hab hbc => Nat.le_trans hbc hab⟩

/-- `prisma.item.findMany` with `orderBy createdAt desc` (routes/items.js
line 10): all rows, sorted newest first. -/
def itemFindMany (s : Store) : List Item :=
  List.insertionSort newerFirst s.rows

/-- `prisma.item.create` with `data` (routes/items.js line 21 and
seed.mjs line 9): inserts a row with a fresh generated id and `createdAt` set
to the current time, and returns the stored row. -/
def itemCreate (now : Nat) (d : CreateItemData) (s : Store) : Item × Store :=
  let it : Item := ⟨s.nextId, d.title, now⟩
  (it, ⟨s.rows ++ [it], s.nextId + 1⟩)

/-- The GET handler of routes/items.js lines 9-12: awaits `findMany`
(failure propagates out of the handler), then responds with the JSON array.
`res.json` defaults the status to 200. -/
def getItems (db : Option DbError) (s : Store) : Except DbError (Response × Store) :=
  match db with
  | some e => .error e
  | none => .ok (⟨200, Json.arr ((itemFindMany s).map itemJson)⟩, s)

/-- The POST handler of routes/items.js lines 17-23: `safeParse` the body; on
failure respond 400 with `parsed.error.format()` (the database is never
touched); on success await `prisma.item.create` (failure propagates out of the
handler) and respond 201 with the created row. -/
def postItems (now : Nat) (db : Option DbError) (body : Json) (s : Store) :
    Except DbError (Response × Store) :=
  match CreateItem_safeParse body with
  | .error issues => .ok (⟨400, formattedErrorJson (formatIssues issues)⟩, s)
  | .ok d =>
      match db with
      | some e => .error e
      | none =>
          let r := itemCreate now d s
          .ok (⟨201, itemJson r.1⟩, r.2)

/-- Modelled from the spec: the top-level fallback for errors that escape a
handler is not in src/ (it is the framework's default error handler); per the
spec, persistence failures "propagate to a top-level fallback that returns a
generic 500" with "no detail leaked", so every escaped error maps to the same
generic 500 response. -/
def expressErrorFallback (s : Store) : Except DbError (Response × Store) → Response × Store
  | .ok r => r
  | .error _ => (⟨500, Json.str "Internal Server Error"⟩, s)

/-- The default frontend origin of index.js line 39. -/
def defaultFrontendOrigin : String := "http://localhost:3000"

/-- `process.env.FRONTEND_ORIGIN || "http://localhost:3000"`: the env value
when set and non-empty (JS `||` skips falsy values, and an env string is never
undefined-but-present other than empty), else the default. -/
def configuredOrigin (env : Option String) : String :=
  match env with
  | none => defaultFrontendOrigin
  | some s => if s = "" then defaultFrontendOrigin else s

/-- `const allowedOrigins = [process.env.FRONTEND_ORIGIN || "http://localhost:3000"]`
(index.js line 39): a one-element list. -/
def allowedOrigins (env : Option String) : List String :=
  [configuredOrigin env]

/-- The CORS `origin` callback of index.js lines 41-48: `if (!origin)` accepts
(JS falsiness holds for an absent header, modelled `none`, and for the empty
string); otherwise accept exactly when `allowedOrigins.includes(origin)`. -/
def corsOriginAllows (env : Option String) : Option String → Bool
  | none => true
  | some o => if o = "" then true else decide (o ∈ allowedOrigins env)

/-- The `main` of prisma/seed.mjs lines 5-14: read `prisma.item.count()`; only
when the count is 0, create one item titled "Welcome to ESDA"; otherwise
perform no write. -/
def seedMain (now : Nat) (s : Store) : Store :=
  if s.rows.length = 0 then (itemCreate now ⟨"Welcome to ESDA"⟩ s).2 else s

/-- Well-formedness of the id generator: every stored id was generated
earlier, so it is below the next fresh id. -/
def Store.WF (s : Store) : Prop := ∀ it ∈ s.rows, it.id < s.nextId

/-- The title bound of the data model: non-empty and at most 200 characters. -/
def titleOk (t : String) : Bool := decide (1 ≤ t.length) && decide (t.length ≤ 200)

/-- Every stored row satisfies the title bound. -/
def StoreTitlesOk (s : Store) : Prop := ∀ it ∈ s.rows, titleOk it.title = true

/-- The invalid-input classes named by claim C2, on an object body: `title`
missing, present but not a string, empty, or longer than 200 characters. -/
def titleFieldBad (fields : List (String × Json)) : Bool :=
  match lookupField fields "title" with
  | none => true
  | some (Json.str t) => decide (t.length = 0) || decide (t.length > 200)
  | some _ => true

/-! Helper lemmas shared by the claim theorems. -/

/-- Successful parse of an object whose `title` is a string within bounds. -/
theorem safeParse_of_bounds (fields : List (String × Json)) (t : String)
    (hl : lookupField fields "title" = some (Json.str t))
    (h1 : 1 ≤ t.length) (h2 : t.length ≤ 200) :
    CreateItem_safeParse (Json.obj fields) = .ok ⟨t⟩ := by
  simp only [CreateItem_safeParse, hl]
  rw [if_neg (by omega), if_neg (by omega)]

/-- A parsed title satisfies the length bounds. -/
theorem safeParse_ok_bounds (body : Json) (d : CreateItemData)
    (h : CreateItem_safeParse body = .ok d) :
    1 ≤ d.title.length ∧ d.title.length ≤ 200 := by
  unfold CreateItem_safeParse at h
  split at h
  · split at h
    · split at h
      · exact absurd h (by simp)
      · split at h
        · exact absurd h (by simp)
        · cases h
          dsimp only
          constructor <;> omega
    · exact absurd h (by simp)
    · exact absurd h (by simp)
  · exact absurd h (by simp)

theorem titleOk_iff (t : String) : titleOk t = true ↔ 1 ≤ t.length ∧ t.length ≤ 200 := by
  simp [titleOk]

/-- The POST handler on a body that fails validation: 400 with the formatted
error, state unchanged, database untouched. -/
theorem postItems_of_error (now : Nat) (db : Option DbError) (body : Json) (s : Store)
    (issues : List ZodIssue) (h : CreateItem_safeParse body = .error issues) :
    postItems now db body s = .ok (⟨400, formattedErrorJson (formatIssues issues)⟩, s) := by
  simp [postItems, h]

/-- The POST handler on a body that passes validation, with the database
statement succeeding: 201 with the created row, row appended, id advanced. -/
theorem postItems_of_ok (now : Nat) (body : Json) (s : Store) (d : CreateItemData)
    (h : CreateItem_safeParse body = .ok d) :
    postItems now none body s =
      .ok (⟨201, itemJson ⟨s.nextId, d.title, now⟩⟩,
        ⟨s.rows ++ [⟨s.nextId, d.title, now⟩], s.nextId + 1⟩) := by
  simp [postItems, h, itemCreate]

/-! Claim theorems. -/

/-- Claim C3: every POST body that passes validation yields a 201 response
whose body is the created record: the submitted title together with the
generated id and the creation timestamp; the record is persisted. -/
theorem valid_post_creates_item (now : Nat) (body : Json) (s : Store) (d : CreateItemData)
    (h : CreateItem_safeParse body = .ok d) :
    postItems now none body s =
      .ok (⟨201, itemJson ⟨s.nextId, d.title, now⟩⟩,
        ⟨s.rows ++ [⟨s.nextId, d.title, now⟩], s.nextId + 1⟩) :=
  postItems_of_ok now body s d h

/-- Witness for C3, the concrete scenario of the spec: POST of title
"Welcome to ESDA" returns 201 with the generated id and that title. -/
theorem valid_post_creates_item_witness :
    CreateItem_safeParse (Json.obj [("title", Json.str "Welcome to ESDA")]) =
      .ok ⟨"Welcome to ESDA"⟩ ∧
    postItems 3 none (Json.obj [("title", Json.str "Welcome to ESDA")]) ⟨[], 0⟩ =
      .ok (⟨201, itemJson ⟨0, "Welcome to ESDA", 3⟩⟩, ⟨[⟨0, "Welcome to ESDA", 3⟩], 1⟩) :=
  ⟨rfl, valid_post_creates_item 3 (Json.obj [("title", Json.str "Welcome to ESDA")]) ⟨[], 0⟩
    ⟨"Welcome to ESDA"⟩ rfl⟩

/-- Claim C4: GET returns 200 with the JSON array of all stored records
(the listed records are a permutation of the rows), ordered newest first
(sorted by the non-increasing createdAt relation), and the empty store
yields the empty array. -/
theorem list_returns_all_sorted_desc (s : Store) :
    getItems none s = .ok (⟨200, Json.arr ((itemFindMany s).map itemJson)⟩, s) ∧
    List.Sorted newerFirst (itemFindMany s) ∧
    (itemFindMany s).Perm s.rows ∧
    (s.rows = [] → getItems none s = .ok (⟨200, Json.arr []⟩, s)) :=
  ⟨rfl, List.sorted_insertionSort newerFirst s.rows,
    List.perm_insertionSort newerFirst s.rows,
    fun h => by simp [getItems, itemFindMany, h, List.insertionSort]⟩

/-- Witness for C4 at the empty store: 200 with the empty array, sorted. -/
theorem list_returns_all_sorted_desc_witness :
    getItems none ⟨[], 0⟩ = .ok (⟨200, Json.arr []⟩, ⟨[], 0⟩) ∧
    List.Sorted newerFirst (itemFindMany ⟨[], 0⟩) :=
  ⟨(list_returns_all_sorted_desc ⟨[], 0⟩).2.2.2 rfl,
    (list_returns_all_sorted_desc ⟨[], 0⟩).2.1⟩

/-- Claim C7: the list operation is read-only and deterministic in the store
state: a GET leaves the store unchanged, and a second GET on the resulting
store returns the same response. -/
theorem list_deterministic_readonly (s : Store) :
    ∃ resp s1 s2, getItems none s = .ok (resp, s1) ∧ s1 = s ∧
      getItems none s1 = .ok (resp, s2) ∧ s2 = s1 :=
  ⟨⟨200, Json.arr ((itemFindMany s).map itemJson)⟩, s, s, rfl, rfl, rfl, rfl⟩

/-- Claim C8 counterexample: the origin callback accepts the empty-string
origin (JS falsiness of the check `if (not origin)`), although the empty
string is not the configured origin, so the callback does not reject every
origin other than the configured one. -/
theorem cors_empty_origin_accepted :
    corsOriginAllows none (some "") = true ∧ ("" ∈ allowedOrigins none → False) :=
  ⟨rfl, by decide⟩

/-- Claim C8 amended: the origin callback accepts an absent origin, and for
every non-empty origin value it accepts exactly the configured frontend
origin (FRONTEND_ORIGIN when set and non-empty, else the default
http://localhost:3000) and rejects every other non-empty origin. -/
theorem cors_allows_iff_configured (env : Option String) (o : String) (ho : o ≠ "") :
    (corsOriginAllows env (some o) = true ↔ o = configuredOrigin env) ∧
    corsOriginAllows env none = true := by
  constructor
  · simp [corsOriginAllows, allowedOrigins, ho]
  · rfl

/-- Witness for the amended C8: the default origin is non-empty and its
acceptance is equivalent to matching the configured origin. -/
theorem cors_allows_iff_configured_witness :
    "http://localhost:3000" ≠ "" ∧
    ((corsOriginAllows none (some "http://localhost:3000") = true ↔
        "http://localhost:3000" = configuredOrigin none) ∧
      corsOriginAllows none none = true) :=
  ⟨by decide, cors_allows_iff_configured none "http://localhost:3000" (by decide)⟩

/-- Claim C10: the seed only writes on an empty store: on a non-empty store
it is the identity; from the empty store it inserts exactly the single item
titled "Welcome to ESDA", and running it again changes nothing. -/
theorem seed_idempotent (now now2 n : Nat) (s : Store) (hne : s.rows ≠ []) :
    seedMain now s = s ∧
    (seedMain now ⟨[], n⟩).rows = [⟨n, "Welcome to ESDA", now⟩] ∧
    seedMain now2 (seedMain now ⟨[], n⟩) = seedMain now ⟨[], n⟩ := by
  refine ⟨?_, rfl, rfl⟩
  rw [seedMain, if_neg (fun h => hne (List.length_eq_zero.mp h))]

/-- Witness for C10 at a one-row store and the empty store. -/
theorem seed_idempotent_witness :
    (⟨[⟨0, "x", 0⟩], 1⟩ : Store).rows ≠ [] ∧
    (seedMain 5 ⟨[⟨0, "x", 0⟩], 1⟩ = ⟨[⟨0, "x", 0⟩], 1⟩ ∧
      (seedMain 5 ⟨[], 0⟩).rows = [⟨0, "Welcome to ESDA", 5⟩] ∧
      seedMain 9 (seedMain 5 ⟨[], 0⟩) = seedMain 5 ⟨[], 0⟩) :=
  ⟨by decide, seed_idempotent 5 9 0 ⟨[⟨0, "x", 0⟩], 1⟩ (by decide)⟩

/-- Claim C1: creating an item with a valid title (1 to 200 characters) on a
well-formed store and then listing yields the created record (same id, title,
createdAt) exactly once. -/
theorem create_then_list_contains_created_once (t : String) (now : Nat) (s : Store)
    (hwf : Store.WF s) (h1 : 1 ≤ t.length) (h2 : t.length ≤ 200) :
    ∃ s2, postItems now none (Json.obj [("title", Json.str t)]) s =
        .ok (⟨201, itemJson ⟨s.nextId, t, now⟩⟩, s2) ∧
      (itemFindMany s2).count ⟨s.nextId, t, now⟩ = 1 := by
  have hsp : CreateItem_safeParse (Json.obj [("title", Json.str t)]) = .ok ⟨t⟩ :=
    safeParse_of_bounds _ t (by simp [lookupField]) h1 h2
  refine ⟨⟨s.rows ++ [⟨s.nextId, t, now⟩], s.nextId + 1⟩,
    postItems_of_ok now _ s ⟨t⟩ hsp, ?_⟩
  have hnot : (⟨s.nextId, t, now⟩ : Item) ∉ s.rows := fun hmem => by
    have := hwf _ hmem
    simp at this
  rw [itemFindMany, (List.perm_insertionSort newerFirst _).count_eq,
    List.count_append]
  simp [List.count_eq_zero.mpr hnot]

/-- Witness for C1 at the empty store and title "a". -/
theorem create_then_list_witness :
    Store.WF ⟨[], 0⟩ ∧ 1 ≤ "a".length ∧ "a".length ≤ 200 ∧
    ∃ s2, postItems 5 none (Json.obj [("title", Json.str "a")]) ⟨[], 0⟩ =
        .ok (⟨201, itemJson ⟨0, "a", 5⟩⟩, s2) ∧
      (itemFindMany s2).count ⟨0, "a", 5⟩ = 1 :=
  ⟨fun it hit => absurd hit (List.not_mem_nil it), by decide, by decide,
    create_then_list_contains_created_once "a" 5 ⟨[], 0⟩
      (fun it hit => absurd hit (List.not_mem_nil it)) (by decide) (by decide)⟩

/-- Claim C2: a POST body whose title is missing, not a string, empty or over
200 characters is rejected with 400 and the formatted field-level error, the
store is unchanged whatever the database would have done, the error
references the `title` field, and for the body without `title` the error is
exactly the `Required` issue on `title`. -/
theorem invalid_title_rejected_unchanged (now : Nat) (db : Option DbError)
    (fields : List (String × Json)) (s : Store) (hbad : titleFieldBad fields = true) :
    ∃ issues, CreateItem_safeParse (Json.obj fields) = .error issues ∧
      postItems now db (Json.obj fields) s =
        .ok (⟨400, formattedErrorJson (formatIssues issues)⟩, s) ∧
      "title" ∈ (formatIssues issues).fieldErrors.map Prod.fst ∧
      (lookupField fields "title" = none → issues = [⟨["title"], "Required"⟩]) := by
  unfold titleFieldBad at hbad
  cases hlk : lookupField fields "title" with
  | none =>
      exact ⟨[⟨["title"], "Required"⟩],
        by simp [CreateItem_safeParse, hlk],
        postItems_of_error now db _ s _ (by simp [CreateItem_safeParse, hlk]),
        by decide, fun _ => rfl⟩
  | some v =>
      cases v with
      | str t =>
          rw [hlk] at hbad
          simp only [Bool.or_eq_true, decide_eq_true_eq] at hbad
          rcases hbad with h0 | h200
          · exact ⟨[⟨["title"], "String must contain at least 1 character(s)"⟩],
              by simp only [CreateItem_safeParse, hlk]; rw [if_pos (by omega)],
              postItems_of_error now db _ s _
                (by simp only [CreateItem_safeParse, hlk]; rw [if_pos (by omega)]),
              by decide, fun h => Option.noConfusion h⟩
          · exact ⟨[⟨["title"], "String must contain at most 200 character(s)"⟩],
              by simp only [CreateItem_safeParse, hlk]
                 rw [if_neg (by omega), if_pos (by omega)],
              postItems_of_error now db _ s _
                (by simp only [CreateItem_safeParse, hlk]
                    rw [if_neg (by omega), if_pos (by omega)]),
              by decide, fun h => Option.noConfusion h⟩
      | null =>
          exact ⟨[⟨["title"], "Expected string"⟩],
            by simp [CreateItem_safeParse, hlk],
            postItems_of_error now db _ s _ (by simp [CreateItem_safeParse, hlk]),
            by decide, fun h => Option.noConfusion h⟩
      | bool b =>
          exact ⟨[⟨["title"], "Expected string"⟩],
            by simp [CreateItem_safeParse, hlk],
            postItems_of_error now db _ s _ (by simp [CreateItem_safeParse, hlk]),
            by decide, fun h => Option.noConfusion h⟩
      | num n =>
          exact ⟨[⟨["title"], "Expected string"⟩],
            by simp [CreateItem_safeParse, hlk],
            postItems_of_error now db _ s _ (by simp [CreateItem_safeParse, hlk]),
            by decide, fun h => Option.noConfusion h⟩
      | arr xs =>
          exact ⟨[⟨["title"], "Expected string"⟩],
            by simp [CreateItem_safeParse, hlk],
            postItems_of_error now db _ s _ (by simp [CreateItem_safeParse, hlk]),
            by decide, fun h => Option.noConfusion h⟩
      | obj o =>
          exact ⟨[⟨["title"], "Expected string"⟩],
            by simp [CreateItem_safeParse, hlk],
            postItems_of_error now db _ s _ (by simp [CreateItem_safeParse, hlk]),
            by decide, fun h => Option.noConfusion h⟩

/-- Witness for C2, the concrete scenario of the spec: POST of the empty
object is rejected with 400 and the `Required` error on `title`, and the
store is unchanged. -/
theorem invalid_title_witness :
    titleFieldBad [] = true ∧
    ∃ issues, CreateItem_safeParse (Json.obj []) = .error issues ∧
      postItems 0 none (Json.obj []) ⟨[], 0⟩ =
        .ok (⟨400, formattedErrorJson (formatIssues issues)⟩, ⟨[], 0⟩) ∧
      "title" ∈ (formatIssues issues).fieldErrors.map Prod.fst ∧
      (lookupField [] "title" = none → issues = [⟨["title"], "Required"⟩]) :=
  ⟨rfl, invalid_title_rejected_unchanged 0 none [] ⟨[], 0⟩ rfl⟩

/-- Claim C5: validation establishes the title bound (1 to 200 characters)
before any insert, and every operation of the public items surface (GET with
any database outcome, POST with any body and database outcome) preserves the
invariant that all stored titles satisfy the bound. -/
theorem title_invariant_preserved (now : Nat) (body : Json) (s : Store)
    (hs : StoreTitlesOk s) :
    (∀ d, CreateItem_safeParse body = .ok d → titleOk d.title = true) ∧
    (∀ db resp s2, getItems db s = .ok (resp, s2) → StoreTitlesOk s2) ∧
    (∀ db resp s2, postItems now db body s = .ok (resp, s2) → StoreTitlesOk s2) := by
  have hval : ∀ d, CreateItem_safeParse body = .ok d → titleOk d.title = true :=
    fun d h => (titleOk_iff d.title).mpr (safeParse_ok_bounds body d h)
  refine ⟨hval, ?_, ?_⟩
  · rintro db resp s2 h
    cases db with
    | some e => simp [getItems] at h
    | none =>
        simp only [getItems, Except.ok.injEq, Prod.mk.injEq] at h
        rw [← h.2]
        exact hs
  · rintro db resp s2 h
    cases hsp : CreateItem_safeParse body with
    | error issues =>
        rw [postItems_of_error now db body s issues hsp] at h
        simp only [Except.ok.injEq, Prod.mk.injEq] at h
        rw [← h.2]
        exact hs
    | ok d =>
        cases db with
        | some e => simp [postItems, hsp] at h
        | none =>
            rw [postItems_of_ok now body s d hsp] at h
            simp only [Except.ok.injEq, Prod.mk.injEq] at h
            rw [← h.2]
            intro it hit
            rcases List.mem_append.mp hit with hmem | hmem
            · exact hs it hmem
            · cases List.mem_singleton.mp hmem
              exact hval d hsp

/-- Witness for C5 at the empty store and a valid one-character body. -/
theorem title_invariant_witness :
    StoreTitlesOk ⟨[], 0⟩ ∧
    ((∀ d, CreateItem_safeParse (Json.obj [("title", Json.str "a")]) = .ok d →
        titleOk d.title = true) ∧
      (∀ db resp s2, getItems db ⟨[], 0⟩ = .ok (resp, s2) → StoreTitlesOk s2) ∧
      (∀ db resp s2, postItems 1 db (Json.obj [("title", Json.str "a")]) ⟨[], 0⟩ =
          .ok (resp, s2) → StoreTitlesOk s2)) :=
  ⟨fun it hit => absurd hit (List.not_mem_nil it),
    title_invariant_preserved 1 (Json.obj [("title", Json.str "a")]) ⟨[], 0⟩
      (fun it hit => absurd hit (List.not_mem_nil it))⟩

/-- Claim C6: validation failures are handled inside the POST handler and
become structured 400 responses whatever the database would have done, while
a persistence failure on a validated body escapes the handler as the error
itself; the top-level fallback maps every escaped error to the same generic
500 response, independent of the error. -/
theorem error_propagation_design (now : Nat) (body : Json) (s : Store) :
    (∀ issues, CreateItem_safeParse body = .error issues →
      ∀ db, postItems now db body s =
        .ok (⟨400, formattedErrorJson (formatIssues issues)⟩, s)) ∧
    (∀ d, CreateItem_safeParse body = .ok d →
      ∀ e, postItems now (some e) body s = .error e) ∧
    (∀ e : DbError,
      expressErrorFallback s (.error e) = (⟨500, Json.str "Internal Server Error"⟩, s)) :=
  ⟨fun issues h db => postItems_of_error now db body s issues h,
    fun d h e => by simp [postItems, h],
    fun _ => rfl⟩

/-- Witness for C6: a validated body with a failing connection escapes as the
error, and the fallback turns it into the generic 500. -/
theorem error_propagation_witness :
    CreateItem_safeParse (Json.obj [("title", Json.str "x")]) = .ok ⟨"x"⟩ ∧
    postItems 1 (some DbError.connectionUnavailable)
        (Json.obj [("title", Json.str "x")]) ⟨[], 0⟩ =
      .error DbError.connectionUnavailable ∧
    expressErrorFallback ⟨[], 0⟩ (.error DbError.connectionUnavailable) =
      (⟨500, Json.str "Internal Server Error"⟩, ⟨[], 0⟩) :=
  ⟨rfl,
    (error_propagation_design 1 (Json.obj [("title", Json.str "x")]) ⟨[], 0⟩).2.1
      ⟨"x"⟩ rfl DbError.connectionUnavailable,
    (error_propagation_design 1 (Json.obj [("title", Json.str "x")]) ⟨[], 0⟩).2.2
      DbError.connectionUnavailable⟩

/-- Claim C9 (implicit): a body with a valid title plus arbitrary extra
fields passes validation, and the data reaching persistence is the stripped
record containing only the title, so the created row is exactly id, title and
createdAt. -/
theorem extra_fields_stripped (now : Nat) (fields : List (String × Json)) (s : Store)
    (t : String) (hl : lookupField fields "title" = some (Json.str t))
    (h1 : 1 ≤ t.length) (h2 : t.length ≤ 200) :
    CreateItem_safeParse (Json.obj fields) = .ok ⟨t⟩ ∧
    postItems now none (Json.obj fields) s =
      .ok (⟨201, itemJson ⟨s.nextId, t, now⟩⟩,
        ⟨s.rows ++ [⟨s.nextId, t, now⟩], s.nextId + 1⟩) :=
  ⟨safeParse_of_bounds fields t hl h1 h2,
    postItems_of_ok now _ s ⟨t⟩ (safeParse_of_bounds fields t hl h1 h2)⟩

/-- Witness for C9: a body with an extra field creates the same row as the
title alone. -/
theorem extra_fields_witness :
    lookupField [("title", Json.str "hi"), ("extra", Json.num 7)] "title" =
      some (Json.str "hi") ∧ 1 ≤ "hi".length ∧ "hi".length ≤ 200 ∧
    (CreateItem_safeParse (Json.obj [("title", Json.str "hi"), ("extra", Json.num 7)]) =
        .ok ⟨"hi"⟩ ∧
      postItems 4 none (Json.obj [("title", Json.str "hi"), ("extra", Json.num 7)]) ⟨[], 0⟩ =
        .ok (⟨201, itemJson ⟨0, "hi", 4⟩⟩, ⟨[⟨0, "hi", 4⟩], 1⟩)) :=
  ⟨rfl, by decide, by decide,
    extra_fields_stripped 4 [("title", Json.str "hi"), ("extra", Json.num 7)] ⟨[], 0⟩
      "hi" rfl (by decide) (by decide)⟩

end Esda
